import Mathlib

/-!
Verification development for the server-side RPC dispatch core
(`src/protobuf_rpc/RpcService.cc` of atNightly/ananas).

The C++ slice is shallowly embedded as executable Lean definitions:
  * the protobuf `RpcMessage` envelope with its `Request`/`Response` arms,
  * `ServerChannel::OnMessage`, `_Invoke`, `OnError`, `_OnServDone`,
  * the byte-arrival entry point `Service::_OnMessage` with its two nested
    C++ catch boundaries,
  * the worker-sharded connection registry touched by
    `Service::OnNewConnection` / `Service::_OnDisconnect`.
Pluggable collaborator behaviour (the bytes-to-message decoder, the user
method body invoked through `CallMethod`, the codec callbacks) is passed in as
explicit function parameters, mirroring the `std::function` seams of the
source.  C++ exceptions are modelled as an explicit error type threaded with
`Except`; member mutation (`currentId_`) is modelled by explicit state
passing.
-/

namespace AnanasRpc

/-- Serialized payload bytes, modelled as strings. -/
abbrev Bytes := String

/-- Request arm of the RpcMessage envelope: `{id, service_name, method_name,
serialized_request}`.  Modelled from the spec for the wire shape
(`ananas_rpc.pb` is not part of the source slice): the correlation id is a
plain integer. -/
structure Request where
  id : Int
  service_name : String
  method_name : String
  serialized_request : Bytes
deriving Repr, DecidableEq

/-- Error payload of a Response arm (`rsp.mutable_error()->set_msg(...)`). -/
structure ErrorMsg where
  msg : String
deriving Repr, DecidableEq

/-- Response arm of the RpcMessage envelope.  `id = none` models the protobuf
field being left unset (`set_id` was not called). -/
structure Response where
  id : Option Int := none
  serialized_response : Bytes := ""
  error : Option ErrorMsg := none
deriving Repr, DecidableEq

/-- The RpcMessage envelope: an optional Request arm and an optional Response
arm (`has_request` / `mutable_response`). -/
structure RpcMessage where
  request : Option Request := none
  response : Option Response := none
deriving Repr, DecidableEq

/-- A decoded domain message handed to `ServerChannel::OnMessage`: either the
RpcMessage envelope type (the `dynamic_cast<RpcMessage*>` in the source
succeeds) or some raw domain message with no in-band id or method (the cast
yields null); `tag` just distinguishes raw-message values. -/
inductive PbMessage where
  | envelope (frame : RpcMessage)
  | raw (tag : Nat)
deriving Repr, DecidableEq

/-- Modelled from the spec (the class hierarchy lives in `RpcException.h`,
which is outside the source slice): `NoServiceException`,
`NoRequestException` and `MethodUndeterminedException` are the recoverable
tier, caught by `Service::_OnMessage` as `std::logic_error`; unrecoverable
failures are `std::runtime_error`; `otherLogic` / `otherStd` stand for any
other exception derived from `std::exception`, and `nonStd` for a C++
throwable that does not derive from `std::exception` at all (C++ allows
throwing any value). -/
inductive Exc where
  | noService (msg : String)
  | noRequest
  | methodUndetermined (msg : String)
  | otherLogic (msg : String)
  | runtime (msg : String)
  | otherStd (msg : String)
  | nonStd (tag : Nat)
deriving Repr, DecidableEq

/-- Matched by `catch (const std::logic_error&)`. -/
def Exc.isLogicError : Exc → Bool
  | .noService _ => true
  | .noRequest => true
  | .methodUndetermined _ => true
  | .otherLogic _ => true
  | _ => false

/-- Matched by `catch (const std::runtime_error&)`. -/
def Exc.isRuntimeError : Exc → Bool
  | .runtime _ => true
  | _ => false

/-- Matched by `catch (const std::exception&)`. -/
def Exc.isStdException : Exc → Bool
  | .nonStd _ => false
  | _ => true

/-- The three exception types the channel pipeline itself throws; the spec
classifies exactly these as recoverable. -/
def Exc.isNamedRecoverable : Exc → Bool
  | .noService _ => true
  | .noRequest => true
  | .methodUndetermined _ => true
  | _ => false

/-- The `what()` text.  `noRequest`'s text comes from `RpcException.h`
(outside the slice) and is modelled as empty; `nonStd` has no `what()` (it is
never consulted: the source only calls `what()` on caught std exceptions). -/
def Exc.what : Exc → String
  | .noService m => m
  | .noRequest => ""
  | .methodUndetermined m => m
  | .otherLogic m => m
  | .runtime m => m
  | .otherStd m => m
  | .nonStd _ => ""

/-- A transport connection, identified by its stable unique id and the id of
the event loop (worker) it is pinned to. -/
structure Conn where
  uniqueId : Nat
  loopId : Nat
deriving Repr, DecidableEq

/-- One packet handed to `conn->SendPacket`. -/
structure SentPacket where
  bytes : Bytes
deriving Repr, DecidableEq

/-- Per-connection channel state (`ServerChannel`), flattened together with
the pieces of its `Service` back-pointer and codec members that the pipeline
reads:
  * `serviceFullName` is `service_->FullName()`;
  * `methods` is the method table consulted by `FindMethodByName`;
  * `methodSelector` is `service_->methodSelector_`;
  * `callMethod` is the outcome of `googServ->CallMethod` on the chosen
    method: `none` means the user method returned normally, `some e` means it
    threw `e` (user code may throw anything);
  * `m2mDecoder` is `decoder_.m2mDecoder_`, the optional message-to-message
    transform building the typed request;
  * `m2fEncoder` is `encoder_.m2fEncoder_`: handed the (possibly null)
    response message, it either fails (`none`, the source asserts on this) or
    produces the bytes it writes into the envelope's `serialized_response`;
  * `f2bEncoder` is `encoder_.f2bEncoder_`, the optional frame-to-bytes
    encoder;
  * `currentId` is the scratch member `currentId_`. -/
structure ServerChannel where
  serviceFullName : String
  methods : List String
  methodSelector : Option (PbMessage → String)
  callMethod : String → PbMessage → Option Exc
  m2mDecoder : Option (PbMessage → PbMessage)
  m2fEncoder : Option PbMessage → Option Bytes
  f2bEncoder : Option (RpcMessage → Bytes)
  currentId : Int := 0

/-- The data captured by `ServerChannel::_Invoke` into the `Closure` it hands
to `CallMethod`: the resolved method, the snapshotted correlation id
(`currentId_` at invocation time), and the request actually passed (after the
optional message-to-message transform). -/
structure InvokeCall where
  methodName : String
  boundId : Int
  request : PbMessage

/-- ServerChannel::_Invoke — look the method up in the method table (absence
throws `MethodUndeterminedException("Not find method [...]")`), optionally
rebuild the typed request via `m2mDecoder_`, then call `CallMethod`; an
exception out of the user method propagates. -/
def ServerChannel._Invoke (ch : ServerChannel) (methodName : String)
    (req : PbMessage) : Except Exc InvokeCall :=
  if ch.methods.contains methodName then
    let req2 := match ch.m2mDecoder with
      | some d => d req
      | none => req
    match ch.callMethod methodName req2 with
    | some e => .error e
    | none => .ok ⟨methodName, ch.currentId, req2⟩
  else
    .error (.methodUndetermined ("Not find method [" ++ methodName ++ "]"))

/-- ServerChannel::OnMessage — resolve method name and correlation id from the
decoded message, then `_Invoke`.  The updated channel (the `currentId_`
member mutation survives a throw) is returned alongside the result. -/
def ServerChannel.OnMessage (ch : ServerChannel) (msg : PbMessage) :
    ServerChannel × Except Exc InvokeCall :=
  match msg with
  | .envelope frame =>
    match frame.request with
    | some r =>
      let ch2 := { ch with currentId := r.id }
      if r.service_name ≠ ch2.serviceFullName then
        (ch2, .error (.noService ("Not find service [" ++ r.service_name ++ "]")))
      else
        (ch2, ch2._Invoke r.method_name msg)
    | none => (ch, .error .noRequest)
  | .raw t =>
    let ch2 := { ch with currentId := -1 }
    match ch2.methodSelector with
    | none =>
      (ch2, .error (.methodUndetermined
        ("methodSelector not set for [" ++ ch2.serviceFullName ++ "]")))
    | some sel => (ch2, ch2._Invoke (sel (.raw t)) (.raw t))

/-- ServerChannel::OnError — build an error Response frame (the id is set only
when `currentId_ != -1`), run the message-to-frame encoder with a null
message, and send either the frame-to-bytes encoder's output or the response
arm's `serialized_response` bytes.  `none` models the `assert (succ)` firing
when the encoder fails. -/
def ServerChannel.OnError (ch : ServerChannel) (what : String) :
    Option (RpcMessage × SentPacket) :=
  match ch.m2fEncoder none with
  | none => none
  | some bs =>
    let rsp : Response :=
      { id := if ch.currentId ≠ -1 then some ch.currentId else none,
        serialized_response := bs,
        error := some ⟨what⟩ }
    let frame : RpcMessage := { request := none, response := some rsp }
    match ch.f2bEncoder with
    | some f2b => some (frame, ⟨f2b frame⟩)
    | none => some (frame, ⟨rsp.serialized_response⟩)

/-- Outcome of `ServerChannel::_OnServDone`. -/
inductive ServDoneResult where
  | dropped
  | assertFailed
  | sent (frame : RpcMessage) (pkt : SentPacket)

/-- The packet sent by a `_OnServDone` outcome, if any. -/
def ServDoneResult.sentPacket : ServDoneResult → Option SentPacket
  | .sent _ p => some p
  | _ => none

/-- ServerChannel::_OnServDone — the Completion Handle's callback.  `wconn` is
the weak connection reference: `none` means it has expired
(`wconn.lock()` returned null), in which case the function returns at once.
Otherwise it builds a Response-arm envelope with the given id, runs the
message-to-frame encoder on the response (failure hits `assert (succ)`), and
sends either the frame-to-bytes encoder's output or the raw
`serialized_response` bytes. -/
def ServerChannel._OnServDone (ch : ServerChannel) (wconn : Option Conn)
    (id : Int) (response : PbMessage) : ServDoneResult :=
  match wconn with
  | none => .dropped
  | some _ =>
    match ch.m2fEncoder (some response) with
    | none => .assertFailed
    | some bs =>
      let rsp : Response := { id := some id, serialized_response := bs, error := none }
      let frame : RpcMessage := { request := none, response := some rsp }
      match ch.f2bEncoder with
      | some f2b => .sent frame ⟨f2b frame⟩
      | none => .sent frame ⟨bs⟩

/-- One call of the pluggable bytes-to-message decoder
(`decoder_.b2mDecoder_(data, len)`, reached through `ServerChannel::OnData`):
either it throws, or it advances the by-reference data pointer by `advance`
bytes and returns an optional complete message (`none` = no complete message
available yet). -/
inductive DecodeResult where
  | thrown (e : Exc)
  | ok (advance : Nat) (msg : Option PbMessage)

/-- Observable outcome of one returning call to `Service::_OnMessage`:
the channel state left behind, the returned consumed-byte count, the messages
handed to `ServerChannel::OnMessage`, the `Closure`s handed to `CallMethod`,
the `OnError` call (with its result) if one was made, whether
`conn->ActiveClose()` was called, and the log lines emitted. -/
structure StepOut where
  channel : ServerChannel
  consumed : Nat
  dispatched : List PbMessage
  invoked : List InvokeCall
  errorSent : Option (Option (RpcMessage × SentPacket))
  closed : Bool
  logged : List String

/-- Service::_OnMessage — the byte-arrival entry point.  The decode step's
behaviour is the `decode` parameter.  The outer `catch (const
std::exception&)` around `OnData` logs, closes and returns 0; a throwable not
derived from `std::exception` is not matched by it and propagates
(`Except.error`).  A message, if decoded, goes through the real
`ServerChannel::OnMessage` pipeline inside the inner try, whose catch cascade
is `std::logic_error` (OnError, stay open), `std::runtime_error` (OnError,
ActiveClose), `...` (log, ActiveClose, no OnError); each inner handler
returns the bytes consumed so far. -/
def Service._OnMessage (ch : ServerChannel) (decode : DecodeResult) :
    Except Exc StepOut :=
  match decode with
  | .thrown e =>
    if e.isStdException then
      .ok { channel := ch, consumed := 0, dispatched := [], invoked := [],
            errorSent := none, closed := true,
            logged := ["Some exception OnData " ++ e.what] }
    else
      .error e
  | .ok advance none =>
    .ok { channel := ch, consumed := advance, dispatched := [], invoked := [],
          errorSent := none, closed := false, logged := [] }
  | .ok advance (some msg) =>
    match ch.OnMessage msg with
    | (ch2, .ok call) =>
      .ok { channel := ch2, consumed := advance, dispatched := [msg],
            invoked := [call], errorSent := none, closed := false, logged := [] }
    | (ch2, .error e) =>
      if e.isLogicError then
        .ok { channel := ch2, consumed := advance, dispatched := [msg],
              invoked := [], errorSent := some (ch2.OnError e.what),
              closed := false, logged := [] }
      else if e.isRuntimeError then
        .ok { channel := ch2, consumed := advance, dispatched := [msg],
              invoked := [], errorSent := some (ch2.OnError e.what),
              closed := true, logged := [] }
      else
        .ok { channel := ch2, consumed := advance, dispatched := [msg],
              invoked := [], errorSent := none, closed := true,
              logged := ["OnMessage: Unknown error"] }

/-- One per-worker shard of `channels_`: a `std::map<uint64_t, ServerChannel*>`
keyed by connection unique id, modelled as an association list with distinct
keys.  The mapped channel is represented by the connection it was created
for (the `ServerChannel` constructor stores exactly that connection). -/
abbrev ChannelMap := List (Nat × Conn)

/-- The worker-sharded registry `channels_`: one `ChannelMap` per event loop,
indexed by loop id. -/
structure ServiceState where
  channels : List ChannelMap
deriving Repr, DecidableEq

/-- Shard lookup `channels_[i]` (total, empty past the end). -/
def shardOf (st : ServiceState) (i : Nat) : ChannelMap := st.channels.getD i []

/-- Service::OnRegister — `channels_.resize(NumOfWorker())`. -/
def initState (n : Nat) : ServiceState := ⟨List.replicate n []⟩

/-- Whether a `std::map` shard already holds the key. -/
def hasKey (m : ChannelMap) (k : Nat) : Bool := m.any (fun p => p.1 == k)

/-- Service::OnNewConnection, restricted to its registry effect: assert the
loop id indexes an existing shard, insert `{conn->GetUniqueId(), channel}`
into that shard, and assert the insertion actually took place (a
pre-existing id fails `assert (succ)`).  `none` models a failed assertion. -/
def Service.OnNewConnection (st : ServiceState) (c : Conn) : Option ServiceState :=
  if c.loopId < st.channels.length then
    let m := shardOf st c.loopId
    if hasKey m c.uniqueId then none
    else some ⟨st.channels.set c.loopId ((c.uniqueId, c) :: m)⟩
  else none

/-- Service::_OnDisconnect — erase the connection's entry from its shard and
assert one entry was erased (`bool succ = channelMap.erase(...)`).
`none` models a failed assertion. -/
def Service._OnDisconnect (st : ServiceState) (c : Conn) : Option ServiceState :=
  if c.loopId < st.channels.length then
    let m := shardOf st c.loopId
    if hasKey m c.uniqueId then
      some ⟨st.channels.set c.loopId (m.filter (fun p => p.1 != c.uniqueId))⟩
    else none
  else none

/-- A connection-lifecycle event delivered by the transport. -/
inductive Event where
  | accept (c : Conn)
  | disconnect (c : Conn)
deriving Repr, DecidableEq

/-- One transport callback into the Service's registry. -/
def regStep (st : ServiceState) : Event → Option ServiceState
  | .accept c => Service.OnNewConnection st c
  | .disconnect c => Service._OnDisconnect st c

/-- A whole run of registry callbacks; `none` as soon as an assertion fails. -/
def regRun (st : ServiceState) : List Event → Option ServiceState
  | [] => some st
  | e :: tr =>
    match regStep st e with
    | none => none
    | some st2 => regRun st2 tr

/-- Ghost bookkeeping: the association of live connections after a trace,
starting from `M` (accept prepends, disconnect removes by unique id). -/
def liveExtend (M : ChannelMap) : List Event → ChannelMap
  | [] => M
  | .accept c :: tr => liveExtend ((c.uniqueId, c) :: M) tr
  | .disconnect c :: tr => liveExtend (M.filter (fun p => p.1 != c.uniqueId)) tr

/-- Live connections after a trace, starting from the empty registry. -/
def liveAfter (tr : List Event) : ChannelMap := liveExtend [] tr

/-- Every connection a trace mentions. -/
def traceConns : List Event → List Conn
  | [] => []
  | .accept c :: tr => c :: traceConns tr
  | .disconnect c :: tr => c :: traceConns tr

/-- The transport guarantee that per-connection unique ids are unique: two
mentioned connections with the same unique id are the same connection. -/
def ConnsOK (cs : List Conn) : Prop :=
  ∀ a, a ∈ cs → ∀ b, b ∈ cs → a.uniqueId = b.uniqueId → a = b

/-- Inductive invariant tying the sharded registry to the ghost live list:
the shard count is fixed, live unique ids are distinct, each live entry is
keyed by its connection's unique id and owned by an existing loop, and every
shard is exactly the live connections pinned to its loop. -/
def Ghost (n : Nat) (M : ChannelMap) (st : ServiceState) : Prop :=
  st.channels.length = n
  ∧ (M.map Prod.fst).Nodup
  ∧ (∀ p, p ∈ M → p.2.uniqueId = p.1 ∧ p.2.loopId < n)
  ∧ (∀ i, shardOf st i = M.filter (fun p => p.2.loopId == i))

/-- A concrete message-to-frame encoder that always succeeds with empty
payload bytes (the shape of the default `PbToFrameResponseEncoder` on the
error path). -/
def m2fOk : Option PbMessage → Option Bytes := fun _ => some ""

/-- A concrete service channel named "Calc" with method "Add", no method
selector, no message-to-message transform, no frame-to-bytes encoder, and a
user method that returns normally. -/
def chCalc : ServerChannel :=
  { serviceFullName := "Calc", methods := ["Add"], methodSelector := none,
    callMethod := fun _ _ => none, m2mDecoder := none,
    m2fEncoder := m2fOk, f2bEncoder := none, currentId := 0 }

/-- A channel like `chCalc` whose user methods throw: "Boom" throws a
`std::runtime_error`, "Mystery" throws a non-std value. -/
def chTier : ServerChannel :=
  { chCalc with
    methods := ["Add", "Boom", "Mystery"],
    callMethod := fun m _ =>
      if m = "Boom" then some (.runtime "boom")
      else if m = "Mystery" then some (.nonStd 7)
      else none }

/-- A concrete trace for the registry: two workers, three connections, one
disconnect in the middle. -/
def trW : List Event :=
  [.accept ⟨1, 0⟩, .accept ⟨2, 1⟩, .disconnect ⟨1, 0⟩, .accept ⟨3, 0⟩]

/-- The registry state reached by `trW` from two freshly sized shards. -/
def stW : ServiceState := ⟨[[(3, ⟨3, 0⟩)], [(2, ⟨2, 1⟩)]]⟩

/-- An error-carrying Response-arm envelope as OnError builds it: optional id,
the encoder's payload bytes, and the error text. -/
def errFrame (oid : Option Int) (bs : Bytes) (msg : String) : RpcMessage :=
  { request := none,
    response := some { id := oid, serialized_response := bs, error := some ⟨msg⟩ } }

theorem Exc.isLogicError_of_isNamedRecoverable (e : Exc)
    (h : e.isNamedRecoverable = true) : e.isLogicError = true := by
  cases e <;> simp_all [Exc.isNamedRecoverable, Exc.isLogicError]

theorem Exc.not_isRuntimeError_of_isLogicError (e : Exc)
    (h : e.isLogicError = true) : e.isRuntimeError = false := by
  cases e <;> simp_all [Exc.isLogicError, Exc.isRuntimeError]

/-- C1: for every decoded message handled by Service::_OnMessage, failures
thrown out of ServerChannel::OnMessage / _Invoke are dispatched in three
tiers: a recoverable failure (NoServiceException, NoRequestException,
MethodUndeterminedException) produces an error response via OnError with the
connection left open and the bytes consumed so far returned; an unrecoverable
failure (std::runtime_error) produces an error response via OnError followed
by an active close; any other/unknown failure produces an active close with
no error response attempted. -/
theorem C1_three_tier_dispatch (ch : ServerChannel) (adv : Nat)
    (m1 m2 m3 : PbMessage) (c1 c2 c3 : ServerChannel) (e1 e2 e3 : Exc)
    (h1 : ch.OnMessage m1 = (c1, .error e1)) (k1 : e1.isNamedRecoverable = true)
    (h2 : ch.OnMessage m2 = (c2, .error e2)) (k2 : e2.isRuntimeError = true)
    (h3 : ch.OnMessage m3 = (c3, .error e3))
    (k3 : e3.isLogicError = false) (k3r : e3.isRuntimeError = false) :
    Service._OnMessage ch (.ok adv (some m1)) =
      .ok { channel := c1, consumed := adv, dispatched := [m1], invoked := [],
            errorSent := some (c1.OnError e1.what), closed := false, logged := [] }
  ∧ Service._OnMessage ch (.ok adv (some m2)) =
      .ok { channel := c2, consumed := adv, dispatched := [m2], invoked := [],
            errorSent := some (c2.OnError e2.what), closed := true, logged := [] }
  ∧ Service._OnMessage ch (.ok adv (some m3)) =
      .ok { channel := c3, consumed := adv, dispatched := [m3], invoked := [],
            errorSent := none, closed := true,
            logged := ["OnMessage: Unknown error"] } := by
  have l1 := Exc.isLogicError_of_isNamedRecoverable e1 k1
  have l2 := Exc.not_isRuntimeError_of_isLogicError
  refine ⟨?_, ?_, ?_⟩
  · simp only [Service._OnMessage, h1, l1, if_true]
  · have : e2.isLogicError = false := by
      cases e2 <;> simp_all [Exc.isLogicError, Exc.isRuntimeError]
    simp only [Service._OnMessage, h2, this, k2, if_true, Bool.false_eq_true,
      if_false]
  · simp only [Service._OnMessage, h3, k3, k3r, Bool.false_eq_true, if_false]

/-- C1 witness: the three tiers exercised on a concrete channel whose user
methods throw a runtime error ("Boom") and a non-std value ("Mystery"), and a
request naming a wrong service. -/
theorem C1_three_tier_dispatch_witness :
    Service._OnMessage chTier
        (.ok 5 (some (.envelope ⟨some ⟨3, "Wrong", "Add", ""⟩, none⟩))) =
      .ok { channel := { chTier with currentId := 3 }, consumed := 5,
            dispatched := [.envelope ⟨some ⟨3, "Wrong", "Add", ""⟩, none⟩],
            invoked := [],
            errorSent := some (ServerChannel.OnError { chTier with currentId := 3 }
              (Exc.noService "Not find service [Wrong]").what),
            closed := false, logged := [] }
  ∧ Service._OnMessage chTier
        (.ok 5 (some (.envelope ⟨some ⟨4, "Calc", "Boom", ""⟩, none⟩))) =
      .ok { channel := { chTier with currentId := 4 }, consumed := 5,
            dispatched := [.envelope ⟨some ⟨4, "Calc", "Boom", ""⟩, none⟩],
            invoked := [],
            errorSent := some (ServerChannel.OnError { chTier with currentId := 4 }
              (Exc.runtime "boom").what),
            closed := true, logged := [] }
  ∧ Service._OnMessage chTier
        (.ok 5 (some (.envelope ⟨some ⟨5, "Calc", "Mystery", ""⟩, none⟩))) =
      .ok { channel := { chTier with currentId := 5 }, consumed := 5,
            dispatched := [.envelope ⟨some ⟨5, "Calc", "Mystery", ""⟩, none⟩],
            invoked := [],
            errorSent := none, closed := true,
            logged := ["OnMessage: Unknown error"] } :=
  C1_three_tier_dispatch chTier 5
    (.envelope ⟨some ⟨3, "Wrong", "Add", ""⟩, none⟩)
    (.envelope ⟨some ⟨4, "Calc", "Boom", ""⟩, none⟩)
    (.envelope ⟨some ⟨5, "Calc", "Mystery", ""⟩, none⟩)
    { chTier with currentId := 3 } { chTier with currentId := 4 }
    { chTier with currentId := 5 }
    (.noService "Not find service [Wrong]") (.runtime "boom") (.nonStd 7)
    rfl rfl rfl rfl rfl rfl rfl

/-- C4: for a decoded message that is not the RpcMessage envelope type,
ServerChannel::OnMessage sets the correlation id to -1 and takes the method
name from the configured method selector; with no selector configured it
fails with a recoverable MethodUndeterminedException instead of silently
ignoring the message. -/
theorem C4_raw_message_selector (ch : ServerChannel) (t : Nat) :
    (ch.methodSelector = none →
      ch.OnMessage (.raw t) =
        ({ ch with currentId := -1 },
         .error (.methodUndetermined
           ("methodSelector not set for [" ++ ch.serviceFullName ++ "]")))
      ∧ Exc.isLogicError (.methodUndetermined
          ("methodSelector not set for [" ++ ch.serviceFullName ++ "]")) = true)
  ∧ (∀ sel, ch.methodSelector = some sel →
      ch.OnMessage (.raw t) =
        ({ ch with currentId := -1 },
         ServerChannel._Invoke { ch with currentId := -1 } (sel (.raw t)) (.raw t))) := by
  constructor
  · intro h
    refine ⟨?_, rfl⟩
    simp only [ServerChannel.OnMessage, h]
  · intro sel h
    simp only [ServerChannel.OnMessage, h]

/-- C4 witness: a raw message against a channel with no method selector. -/
theorem C4_raw_message_selector_witness :
    chCalc.OnMessage (.raw 0) =
      ({ chCalc with currentId := -1 },
       .error (.methodUndetermined
         ("methodSelector not set for [" ++ chCalc.serviceFullName ++ "]")))
    ∧ Exc.isLogicError (.methodUndetermined
        ("methodSelector not set for [" ++ chCalc.serviceFullName ++ "]")) = true :=
  (C4_raw_message_selector chCalc 0).1 rfl

/-- C5 counterexample: a C++ throwable not derived from std::exception thrown
by the pluggable decode step is matched by no catch clause of
Service::_OnMessage and propagates past it, so the claim that every failure
of the decode path is caught there is false. -/
theorem C5_counterexample :
    Service._OnMessage chCalc (.thrown (.nonStd 0)) = .error (.nonStd 0) := rfl

/-- C5 (amended): every std::exception thrown by the decode path is caught by
Service::_OnMessage and converted into a connection close, and no failure of
the message-handling path ever escapes; only a non-std throwable from the
decode path propagates. -/
theorem C5_outermost_failure_boundary (e : Exc) (hstd : e.isStdException = true) :
    (∀ ch, Service._OnMessage ch (.thrown e) =
      .ok { channel := ch, consumed := 0, dispatched := [], invoked := [],
            errorSent := none, closed := true,
            logged := ["Some exception OnData " ++ e.what] })
  ∧ (∀ (ch : ServerChannel) (adv : Nat) (om : Option PbMessage),
      ∃ st, Service._OnMessage ch (.ok adv om) = .ok st) := by
  constructor
  · intro ch
    simp only [Service._OnMessage, hstd, if_true]
  · intro ch adv om
    match om with
    | none => exact ⟨_, rfl⟩
    | some msg =>
      rcases h : ch.OnMessage msg with ⟨ch2, res⟩
      match res with
      | .ok call =>
        exact ⟨_, by simp only [Service._OnMessage, h]; rfl⟩
      | .error e2 =>
        cases e2 <;> exact ⟨_, by simp only [Service._OnMessage, h]; rfl⟩

/-- C5 witness: a std::runtime_error from the decode step is caught and turned
into an active close with zero bytes consumed. -/
theorem C5_outermost_failure_boundary_witness :
    Service._OnMessage chCalc (.thrown (.runtime "evil")) =
      .ok { channel := chCalc, consumed := 0, dispatched := [], invoked := [],
            errorSent := none, closed := true,
            logged := ["Some exception OnData " ++ (Exc.runtime "evil").what] } :=
  (C5_outermost_failure_boundary (.runtime "evil") rfl).1 chCalc

/-- C6: a completion callback whose weak connection reference has expired
performs no send and no other observable action. -/
theorem C6_expired_weak_conn_noop :
    ∀ (ch : ServerChannel) (id : Int) (resp : PbMessage),
      ch._OnServDone none id resp = .dropped
      ∧ (ch._OnServDone none id resp).sentPacket = none := by
  intro ch id resp
  exact ⟨rfl, rfl⟩

/-- C7 counterexample: a decode-step failure signalled by a throwable not
derived from std::exception is not caught: the connection is not closed and
no byte count is returned — the call propagates the exception instead, so
the claim as stated (every decode failure leads to close and zero consumed)
is false. -/
theorem C7_counterexample :
    Service._OnMessage chTier (.thrown (.nonStd 1)) = .error (.nonStd 1) := rfl

/-- C7 (amended): for every byte-arrival call in which the decode step fails
with an exception derived from std::exception, Service::_OnMessage logs the
failure, actively closes the connection, returns zero bytes consumed, and
dispatches no message. -/
theorem C7_decode_failure_closes (e : Exc) (hstd : e.isStdException = true)
    (ch : ServerChannel) :
    Service._OnMessage ch (.thrown e) =
      .ok { channel := ch, consumed := 0, dispatched := [], invoked := [],
            errorSent := none, closed := true,
            logged := ["Some exception OnData " ++ e.what] } := by
  simp only [Service._OnMessage, hstd, if_true]

/-- C7 witness: a std::exception-derived decode failure on a concrete
channel. -/
theorem C7_decode_failure_closes_witness :
    Service._OnMessage chTier (.thrown (.otherStd "evil frame")) =
      .ok { channel := chTier, consumed := 0, dispatched := [], invoked := [],
            errorSent := none, closed := true,
            logged := ["Some exception OnData " ++ (Exc.otherStd "evil frame").what] } :=
  C7_decode_failure_closes (.otherStd "evil frame") rfl chTier

/-- C8: with a live connection, _OnServDone builds a Response-arm envelope
carrying the given id, runs the message-to-frame encoder on the response
(failure is a fatal assertion), and then sends the frame-to-bytes encoder's
output when one is configured, and the envelope's raw serialized-response
bytes otherwise. -/
theorem C8_servdone_encode_send (ch : ServerChannel) (cn : Conn) (id : Int)
    (resp : PbMessage) (bs : Bytes)
    (henc : ch.m2fEncoder (some resp) = some bs) :
    (ch.f2bEncoder = none →
      ch._OnServDone (some cn) id resp =
        .sent { request := none,
                response := some { id := some id, serialized_response := bs,
                                   error := none } } ⟨bs⟩)
  ∧ (∀ f, ch.f2bEncoder = some f →
      ch._OnServDone (some cn) id resp =
        .sent { request := none,
                response := some { id := some id, serialized_response := bs,
                                   error := none } }
          ⟨f { request := none,
               response := some { id := some id, serialized_response := bs,
                                  error := none } }⟩)
  ∧ (∀ resp2, ch.m2fEncoder (some resp2) = none →
      ch._OnServDone (some cn) id resp2 = .assertFailed) := by
  refine ⟨?_, ?_, ?_⟩
  · intro hf
    simp only [ServerChannel._OnServDone, henc, hf]
  · intro f hf
    simp only [ServerChannel._OnServDone, henc, hf]
  · intro resp2 henc2
    simp only [ServerChannel._OnServDone, henc2]

/-- C8 witness: a successful completion on a live connection with no
frame-to-bytes encoder configured sends the raw serialized-response bytes. -/
theorem C8_servdone_encode_send_witness :
    chCalc._OnServDone (some ⟨1, 0⟩) 7 (.raw 0) =
      .sent { request := none,
              response := some { id := some 7, serialized_response := "",
                                 error := none } } ⟨""⟩ :=
  (C8_servdone_encode_send chCalc ⟨1, 0⟩ 7 (.raw 0) "" rfl).1 rfl

/-- C10: one call to Service::_OnMessage dispatches at most one message, the
returned count equals exactly the bytes the decoder advanced for that call,
and — given the decoder contract that it does not advance when no complete
message is available — the count is zero when no message was decoded. -/
theorem C10_at_most_one_message (ch : ServerChannel) (adv : Nat)
    (om : Option PbMessage) (hc : om = none → adv = 0) :
    ∃ st, Service._OnMessage ch (.ok adv om) = .ok st
      ∧ st.dispatched.length ≤ 1 ∧ st.consumed = adv
      ∧ (om = none → st.consumed = 0 ∧ st.dispatched = []) := by
  match om with
  | none =>
    refine ⟨_, rfl, by simp, rfl, fun _ => ⟨?_, rfl⟩⟩
    exact hc rfl
  | some msg =>
    rcases h : ch.OnMessage msg with ⟨ch2, res⟩
    match res with
    | .ok call =>
      exact ⟨_, by simp only [Service._OnMessage, h]; rfl, by simp, rfl, by simp⟩
    | .error e2 =>
      cases e2 <;>
        exact ⟨_, by simp only [Service._OnMessage, h]; rfl, by simp, rfl, by simp⟩

/-- C10 witness: a call with no complete message available consumes zero
bytes and dispatches nothing. -/
theorem C10_at_most_one_message_witness :
    ∃ st, Service._OnMessage chCalc (.ok 0 none) = .ok st
      ∧ st.dispatched.length ≤ 1 ∧ st.consumed = 0
      ∧ (none = (none : Option PbMessage) → st.consumed = 0 ∧ st.dispatched = []) :=
  C10_at_most_one_message chCalc 0 none (fun _ => rfl)

/-- C2 counterexample: a Request whose own correlation id is -1 and whose
service name is wrong gets an error response whose id field is left unset
(OnError only calls `set_id` when `currentId_ != -1`), so the response does
not carry the request's own id: the claim fails at id = -1. -/
theorem C2_counterexample :
    Service._OnMessage chCalc
        (.ok 4 (some (.envelope ⟨some ⟨-1, "Wrong", "Add", ""⟩, none⟩))) =
      .ok { channel := { chCalc with currentId := -1 }, consumed := 4,
            dispatched := [.envelope ⟨some ⟨-1, "Wrong", "Add", ""⟩, none⟩],
            invoked := [],
            errorSent := some (some
              (errFrame none "" "Not find service [Wrong]", ⟨""⟩)),
            closed := false, logged := [] }
    ∧ (none : Option Int) ≠ some (-1 : Int) :=
  ⟨rfl, by decide⟩

/-- C2 (amended): for every envelope-typed message whose Request arm declares
a service name different from the service's full name and whose correlation
id is not -1, the channel answers with an error response that carries the
request's own correlation id and the error text "Not find service [name]",
and the connection stays open; when the request's id is -1 the error response
is still sent and the connection stays open, but its id field is left
unset. -/
theorem C2_wrong_service_error (ch : ServerChannel) (frame : RpcMessage)
    (r : Request) (adv : Nat) (bs : Bytes)
    (hreq : frame.request = some r)
    (hname : r.service_name ≠ ch.serviceFullName)
    (hid : r.id ≠ -1)
    (henc : ch.m2fEncoder none = some bs) :
    ∃ pkt, Service._OnMessage ch (.ok adv (some (.envelope frame))) =
      .ok { channel := { ch with currentId := r.id }, consumed := adv,
            dispatched := [.envelope frame], invoked := [],
            errorSent := some (some
              (errFrame (some r.id) bs
                 ("Not find service [" ++ r.service_name ++ "]"), pkt)),
            closed := false, logged := [] } := by
  obtain ⟨sfn, mth, sel, cm, m2m, m2f, f2b, cid⟩ := ch
  have henc2 : m2f none = some bs := henc
  rcases f2b with - | fb
  · refine ⟨⟨bs⟩, ?_⟩
    simp only [Service._OnMessage, ServerChannel.OnMessage, hreq]
    rw [if_pos hname]
    simp only [Exc.isLogicError, if_true, Exc.what, ServerChannel.OnError]
    rw [henc2]
    rw [if_pos hid]
    rfl
  · refine ⟨⟨fb (errFrame (some r.id) bs
      ("Not find service [" ++ r.service_name ++ "]"))⟩, ?_⟩
    simp only [Service._OnMessage, ServerChannel.OnMessage, hreq]
    rw [if_pos hname]
    simp only [Exc.isLogicError, if_true, Exc.what, ServerChannel.OnError]
    rw [henc2]
    rw [if_pos hid]
    rfl

/-- C2 witness: a wrong-service request with id 3 against "Calc" yields an
error response carrying id 3 and "Not find service [Wrong]" with the
connection open. -/
theorem C2_wrong_service_error_witness :
    ∃ pkt, Service._OnMessage chCalc
        (.ok 4 (some (.envelope ⟨some ⟨3, "Wrong", "Add", ""⟩, none⟩))) =
      .ok { channel := { chCalc with currentId := 3 }, consumed := 4,
            dispatched := [.envelope ⟨some ⟨3, "Wrong", "Add", ""⟩, none⟩],
            invoked := [],
            errorSent := some (some
              (errFrame (some 3) ""
                 ("Not find service [" ++ "Wrong" ++ "]"), pkt)),
            closed := false, logged := [] } :=
  C2_wrong_service_error chCalc ⟨some ⟨3, "Wrong", "Add", ""⟩, none⟩
    ⟨3, "Wrong", "Add", ""⟩ 4 "" rfl (by decide) (by decide) rfl

/-- C3 counterexample: a request with correlation id -1 naming an absent
method gets an error response whose id field is left unset, so the response
does not carry the request's correlation id: the claim fails at id = -1. -/
theorem C3_counterexample :
    Service._OnMessage chCalc
        (.ok 4 (some (.envelope ⟨some ⟨-1, "Calc", "Div", ""⟩, none⟩))) =
      .ok { channel := { chCalc with currentId := -1 }, consumed := 4,
            dispatched := [.envelope ⟨some ⟨-1, "Calc", "Div", ""⟩, none⟩],
            invoked := [],
            errorSent := some (some
              (errFrame none "" "Not find method [Div]", ⟨""⟩)),
            closed := false, logged := [] }
    ∧ (none : Option Int) ≠ some (-1 : Int) :=
  ⟨rfl, by decide⟩

/-- C3 (amended): for every envelope-carried request with correlation id
different from -1 naming a method absent from the method table, _Invoke fails
with MethodUndeterminedException, the peer receives an error response
carrying the request's correlation id and the text "Not find method [name]",
and the connection stays open; at id = -1 the error response is still sent
and the connection stays open, but its id field is left unset. -/
theorem C3_missing_method_error (ch : ServerChannel) (frame : RpcMessage)
    (r : Request) (adv : Nat) (bs : Bytes)
    (hreq : frame.request = some r)
    (hname : r.service_name = ch.serviceFullName)
    (hmeth : ch.methods.contains r.method_name = false)
    (hid : r.id ≠ -1)
    (henc : ch.m2fEncoder none = some bs) :
    ∃ pkt, Service._OnMessage ch (.ok adv (some (.envelope frame))) =
      .ok { channel := { ch with currentId := r.id }, consumed := adv,
            dispatched := [.envelope frame], invoked := [],
            errorSent := some (some
              (errFrame (some r.id) bs
                 ("Not find method [" ++ r.method_name ++ "]"), pkt)),
            closed := false, logged := [] } := by
  obtain ⟨sfn, mth, sel, cm, m2m, m2f, f2b, cid⟩ := ch
  have hne : ¬ (r.service_name ≠ sfn) := fun hcon => hcon hname
  have hcontains : (mth.contains r.method_name = true) = False := by
    rw [hmeth]
    simp
  have henc2 : m2f none = some bs := henc
  rcases f2b with - | fb
  · refine ⟨⟨bs⟩, ?_⟩
    simp only [Service._OnMessage, ServerChannel.OnMessage, hreq]
    rw [if_neg hne]
    simp only [ServerChannel._Invoke, hcontains, if_false]
    simp only [Exc.isLogicError, if_true, Exc.what, ServerChannel.OnError]
    rw [henc2]
    rw [if_pos hid]
    rfl
  · refine ⟨⟨fb (errFrame (some r.id) bs
      ("Not find method [" ++ r.method_name ++ "]"))⟩, ?_⟩
    simp only [Service._OnMessage, ServerChannel.OnMessage, hreq]
    rw [if_neg hne]
    simp only [ServerChannel._Invoke, hcontains, if_false]
    simp only [Exc.isLogicError, if_true, Exc.what, ServerChannel.OnError]
    rw [henc2]
    rw [if_pos hid]
    rfl

/-- C3 witness: Request{id=9, service="Calc", method="Div"} with "Div" absent
from the method table yields Response{id=9, error="Not find method [Div]"}
with the connection open. -/
theorem C3_missing_method_error_witness :
    ∃ pkt, Service._OnMessage chCalc
        (.ok 4 (some (.envelope ⟨some ⟨9, "Calc", "Div", ""⟩, none⟩))) =
      .ok { channel := { chCalc with currentId := 9 }, consumed := 4,
            dispatched := [.envelope ⟨some ⟨9, "Calc", "Div", ""⟩, none⟩],
            invoked := [],
            errorSent := some (some
              (errFrame (some 9) ""
                 ("Not find method [" ++ "Div" ++ "]"), pkt)),
            closed := false, logged := [] } :=
  C3_missing_method_error chCalc ⟨some ⟨9, "Calc", "Div", ""⟩, none⟩
    ⟨9, "Calc", "Div", ""⟩ 4 "" rfl rfl rfl (by decide) rfl

theorem connsOK_of_pairwise {cs : List Conn}
    (h : cs.Pairwise (fun a b => a.uniqueId = b.uniqueId → a = b)) : ConnsOK cs := by
  induction cs with
  | nil =>
    intro a ha
    exact absurd ha (List.not_mem_nil a)
  | cons c cs ih =>
    rcases List.pairwise_cons.mp h with ⟨hc, hcs⟩
    intro a ha b hb hid
    rcases List.mem_cons.mp ha with rfl | ha2
    · rcases List.mem_cons.mp hb with rfl | hb2
      · rfl
      · exact hc b hb2 hid
    · rcases List.mem_cons.mp hb with rfl | hb2
      · exact (hc a ha2 hid.symm).symm
      · exact ih hcs a ha2 b hb2 hid

theorem connsOK_mono {cs cs2 : List Conn} (hsub : ∀ x, x ∈ cs2 → x ∈ cs)
    (h : ConnsOK cs) : ConnsOK cs2 :=
  fun a ha b hb hid => h a (hsub a ha) b (hsub b hb) hid

theorem shardOf_set_self (l : List ChannelMap) (k : Nat) (x : ChannelMap)
    (h : k < l.length) : shardOf ⟨l.set k x⟩ k = x := by
  simp [shardOf, List.getD_eq_getElem?_getD, List.getElem?_set_self, h]

theorem shardOf_set_ne (l : List ChannelMap) (k i : Nat) (x : ChannelMap)
    (h : k ≠ i) : shardOf ⟨l.set k x⟩ i = shardOf ⟨l⟩ i := by
  simp only [shardOf]
  simp only [List.getD_eq_getElem?_getD]
  rw [List.getElem?_set_ne h]

theorem shardOf_init (n i : Nat) : shardOf (initState n) i = [] := by
  simp [shardOf, initState, List.getD_eq_getElem?_getD]

theorem eq_of_mem_keys_nodup :
    ∀ {M : ChannelMap}, (M.map Prod.fst).Nodup →
      ∀ {p q : Nat × Conn}, p ∈ M → q ∈ M → p.1 = q.1 → p = q := by
  intro M
  induction M with
  | nil =>
    intro _ p q hp
    exact absurd hp (List.not_mem_nil p)
  | cons a M ih =>
    intro hnd p q hp hq h1
    simp only [List.map_cons, List.nodup_cons] at hnd
    rcases List.mem_cons.mp hp with rfl | hp2
    · rcases List.mem_cons.mp hq with rfl | hq2
      · rfl
      · exact absurd (List.mem_map.mpr ⟨q, hq2, h1.symm⟩) hnd.1
    · rcases List.mem_cons.mp hq with rfl | hq2
      · exact absurd (List.mem_map.mpr ⟨p, hp2, h1⟩) hnd.1
      · exact ih hnd.2 hp2 hq2 h1

theorem filter_key_singleton :
    ∀ (M : ChannelMap) (k : Nat) (v : Conn), (M.map Prod.fst).Nodup →
      (k, v) ∈ M → M.filter (fun p => p.1 == k) = [(k, v)] := by
  intro M
  induction M with
  | nil =>
    intro k v _ hm
    exact absurd hm (List.not_mem_nil (k, v))
  | cons a M ih =>
    intro k v hnd hm
    simp only [List.map_cons, List.nodup_cons] at hnd
    rcases List.mem_cons.mp hm with rfl | hm2
    · rw [List.filter_cons_of_pos (by simp)]
      have hrest : M.filter (fun p => p.1 == k) = [] := by
        rw [List.filter_eq_nil_iff]
        intro p hp
        simp only [beq_iff_eq]
        intro hcon
        exact hnd.1 (List.mem_map.mpr ⟨p, hp, hcon⟩)
      rw [hrest]
    · by_cases hq : a.1 = k
      · exfalso
        apply hnd.1
        rw [hq]
        exact List.mem_map.mpr ⟨(k, v), hm2, rfl⟩
      · rw [List.filter_cons_of_neg (by simp [hq])]
        exact ih k v hnd.2 hm2

theorem filter_swap (l : ChannelMap) (p q : Nat × Conn → Bool) :
    (l.filter p).filter q = (l.filter q).filter p := by
  rw [List.filter_filter, List.filter_filter]
  apply List.filter_congr
  intro a _
  exact Bool.and_comm (q a) (p a)

theorem ghost_accept (n : Nat) (M : ChannelMap) (st st2 : ServiceState)
    (c : Conn) (hg : Ghost n M st)
    (hu : ∀ p ∈ M, p.2.uniqueId = c.uniqueId → p.2 = c)
    (hstep : Service.OnNewConnection st c = some st2) :
    Ghost n ((c.uniqueId, c) :: M) st2 := by
  obtain ⟨hlen, hnd, hmem, hshard⟩ := hg
  simp only [Service.OnNewConnection] at hstep
  by_cases hb : c.loopId < st.channels.length
  case neg =>
    rw [if_neg hb] at hstep
    exact absurd hstep (by simp)
  rw [if_pos hb] at hstep
  by_cases hk : hasKey (shardOf st c.loopId) c.uniqueId = true
  case pos =>
    rw [if_pos hk] at hstep
    exact absurd hstep (by simp)
  rw [if_neg hk] at hstep
  obtain rfl : (⟨st.channels.set c.loopId
      ((c.uniqueId, c) :: shardOf st c.loopId)⟩ : ServiceState) = st2 :=
    Option.some.inj hstep
  have hfresh : c.uniqueId ∉ M.map Prod.fst := by
    intro hcon
    obtain ⟨p, hp, hp1⟩ := List.mem_map.mp hcon
    have hpc : p.2 = c := hu p hp (((hmem p hp).1).trans hp1)
    have hpk : p = (c.uniqueId, c) := by
      obtain ⟨p1, p2⟩ := p
      simp only at hp1 hpc
      rw [hp1, hpc]
    apply hk
    apply List.any_eq_true.mpr
    refine ⟨p, ?_, by simp [hpk]⟩
    rw [hshard c.loopId]
    apply List.mem_filter.mpr
    exact ⟨hp, by simp [hpk]⟩
  have hnodup2 : (((c.uniqueId, c) :: M).map Prod.fst).Nodup := by
    rw [List.map_cons]
    exact List.nodup_cons.mpr ⟨hfresh, hnd⟩
  refine ⟨by simpa using hlen, hnodup2, ?_, ?_⟩
  · intro p hp
    rcases List.mem_cons.mp hp with rfl | hp2
    · exact ⟨rfl, hlen ▸ hb⟩
    · exact hmem p hp2
  · intro i
    by_cases hi : c.loopId = i
    · subst hi
      rw [shardOf_set_self _ _ _ hb]
      rw [List.filter_cons_of_pos (by simp)]
      rw [hshard c.loopId]
    · rw [shardOf_set_ne _ _ _ _ hi]
      rw [List.filter_cons_of_neg (by simp [hi])]
      exact hshard i

theorem ghost_disconnect (n : Nat) (M : ChannelMap) (st st2 : ServiceState)
    (c : Conn) (hg : Ghost n M st)
    (hstep : Service._OnDisconnect st c = some st2) :
    Ghost n (M.filter (fun p => p.1 != c.uniqueId)) st2 := by
  obtain ⟨hlen, hnd, hmem, hshard⟩ := hg
  simp only [Service._OnDisconnect] at hstep
  by_cases hb : c.loopId < st.channels.length
  case neg =>
    rw [if_neg hb] at hstep
    exact absurd hstep (by simp)
  rw [if_pos hb] at hstep
  by_cases hk : hasKey (shardOf st c.loopId) c.uniqueId = true
  case neg =>
    rw [if_neg hk] at hstep
    exact absurd hstep (by simp)
  rw [if_pos hk] at hstep
  obtain rfl : (⟨st.channels.set c.loopId
      ((shardOf st c.loopId).filter (fun p => p.1 != c.uniqueId))⟩ : ServiceState)
      = st2 := Option.some.inj hstep
  obtain ⟨pk, hpkmem, hpk1⟩ := List.any_eq_true.mp hk
  have hpkM : pk ∈ M ∧ (pk.2.loopId == c.loopId) = true := by
    have := hpkmem
    rw [hshard c.loopId] at this
    exact List.mem_filter.mp this
  refine ⟨by simpa using hlen, ?_, ?_, ?_⟩
  · exact List.Nodup.sublist (List.Sublist.map Prod.fst (List.filter_sublist M)) hnd
  · intro p hp
    exact hmem p (List.mem_filter.mp hp).1
  · intro i
    by_cases hi : c.loopId = i
    · subst hi
      rw [shardOf_set_self _ _ _ hb]
      rw [hshard c.loopId]
      exact filter_swap M _ _
    · rw [shardOf_set_ne _ _ _ _ hi]
      rw [hshard i]
      rw [filter_swap M (fun p => p.1 != c.uniqueId) (fun p => p.2.loopId == i)]
      symm
      apply List.filter_eq_self.mpr
      intro p hp
      obtain ⟨hpM, hpl⟩ := List.mem_filter.mp hp
      simp only [bne_iff_ne, ne_eq]
      intro hcon
      have hpq : p = pk :=
        eq_of_mem_keys_nodup hnd hpM hpkM.1 (by
          rw [hcon]
          exact (beq_iff_eq.mp hpk1).symm)
      apply hi
      have h1 : pk.2.loopId = c.loopId := beq_iff_eq.mp hpkM.2
      have h2 : p.2.loopId = i := beq_iff_eq.mp hpl
      rw [← h1, ← h2, hpq]

theorem ghost_run (n : Nat) :
    ∀ (tr : List Event) (st0 st : ServiceState) (M : ChannelMap),
      Ghost n M st0 → ConnsOK (M.map Prod.snd ++ traceConns tr) →
      regRun st0 tr = some st → Ghost n (liveExtend M tr) st := by
  intro tr
  induction tr with
  | nil =>
    intro st0 st M hg _ hrun
    obtain rfl : st0 = st := Option.some.inj hrun
    exact hg
  | cons e tr ih =>
    intro st0 st M hg hok hrun
    cases e with
    | accept c =>
      cases hstep : Service.OnNewConnection st0 c with
      | none =>
        rw [regRun] at hrun
        simp [regStep, hstep] at hrun
      | some st1 =>
        rw [regRun] at hrun
        simp only [regStep, hstep] at hrun
        have hu : ∀ p ∈ M, p.2.uniqueId = c.uniqueId → p.2 = c := by
          intro p hp hid
          apply hok p.2 _ c _ hid
          · exact List.mem_append.mpr (Or.inl (List.mem_map.mpr ⟨p, hp, rfl⟩))
          · exact List.mem_append.mpr (Or.inr (by simp [traceConns]))
        have hok1 : ConnsOK (((c.uniqueId, c) :: M).map Prod.snd ++ traceConns tr) := by
          apply connsOK_mono _ hok
          intro x hx
          rw [List.map_cons] at hx
          rcases List.mem_append.mp hx with hx1 | hx2
          · rcases List.mem_cons.mp hx1 with rfl | hx3
            · exact List.mem_append.mpr (Or.inr (by simp [traceConns]))
            · exact List.mem_append.mpr (Or.inl hx3)
          · refine List.mem_append.mpr (Or.inr ?_)
            simp only [traceConns, List.mem_cons]
            exact Or.inr hx2
        exact ih st1 st ((c.uniqueId, c) :: M)
          (ghost_accept n M st0 st1 c hg hu hstep) hok1 hrun
    | disconnect c =>
      cases hstep : Service._OnDisconnect st0 c with
      | none =>
        rw [regRun] at hrun
        simp [regStep, hstep] at hrun
      | some st1 =>
        rw [regRun] at hrun
        simp only [regStep, hstep] at hrun
        have hok1 : ConnsOK ((M.filter (fun p => p.1 != c.uniqueId)).map Prod.snd
            ++ traceConns tr) := by
          apply connsOK_mono _ hok
          intro x hx
          simp only [List.mem_append, List.mem_map, traceConns, List.mem_cons] at hx ⊢
          rcases hx with ⟨p, hp, hpx⟩ | hx2
          · exact Or.inl ⟨p, (List.mem_filter.mp hp).1, hpx⟩
          · exact Or.inr (Or.inr hx2)
        exact ih st1 st (M.filter (fun p => p.1 != c.uniqueId))
          (ghost_disconnect n M st0 st1 c hg hstep) hok1 hrun

theorem ghost_init (n : Nat) : Ghost n [] (initState n) := by
  refine ⟨by simp [initState], by simp, by simp, ?_⟩
  intro i
  rw [shardOf_init]
  rfl

/-- C9: after any successful sequence of accept/disconnect callbacks (with the
transport's connection-id uniqueness), every registry entry sits on the shard
of its connection's owning loop keyed by its unique id and belongs to a live
connection; every live connection has exactly one entry, on exactly its own
shard, and no other shard holds its id; re-inserting a live connection hits
the insertion assertion (OnNewConnection fails), and disconnecting a
connection with no entry hits the erase assertion (_OnDisconnect fails). -/
theorem C9_sharded_registry (n : Nat) (tr : List Event) (st : ServiceState)
    (hOK : ConnsOK (traceConns tr))
    (hrun : regRun (initState n) tr = some st) :
    st.channels.length = n
  ∧ (∀ i, ∀ p ∈ shardOf st i,
      p.2.loopId = i ∧ p.2.uniqueId = p.1 ∧ p ∈ liveAfter tr)
  ∧ (∀ c : Conn, (c.uniqueId, c) ∈ liveAfter tr →
      (shardOf st c.loopId).filter (fun p => p.1 == c.uniqueId) = [(c.uniqueId, c)]
      ∧ ∀ j, j ≠ c.loopId →
          (shardOf st j).filter (fun p => p.1 == c.uniqueId) = [])
  ∧ (∀ c : Conn, (c.uniqueId, c) ∈ liveAfter tr →
      Service.OnNewConnection st c = none)
  ∧ (∀ c : Conn, (shardOf st c.loopId).filter (fun p => p.1 == c.uniqueId) = [] →
      Service._OnDisconnect st c = none) := by
  have hg : Ghost n (liveAfter tr) st :=
    ghost_run n tr (initState n) st [] (ghost_init n) (by simpa using hOK) hrun
  obtain ⟨hlen, hnd, hmem, hshard⟩ := hg
  have hsing : ∀ c : Conn, (c.uniqueId, c) ∈ liveAfter tr →
      (shardOf st c.loopId).filter (fun p => p.1 == c.uniqueId)
        = [(c.uniqueId, c)] := by
    intro c hc
    rw [hshard c.loopId]
    rw [filter_swap]
    rw [filter_key_singleton (liveAfter tr) c.uniqueId c hnd hc]
    rw [List.filter_cons_of_pos (by simp)]
    rfl
  refine ⟨hlen, ?_, ?_, ?_, ?_⟩
  · intro i p hp
    rw [hshard i] at hp
    obtain ⟨hpM, hpl⟩ := List.mem_filter.mp hp
    exact ⟨beq_iff_eq.mp hpl, (hmem p hpM).1, hpM⟩
  · intro c hc
    refine ⟨hsing c hc, ?_⟩
    intro j hj
    rw [hshard j]
    rw [filter_swap]
    rw [filter_key_singleton (liveAfter tr) c.uniqueId c hnd hc]
    rw [List.filter_cons_of_neg (by
      simp only [beq_iff_eq]
      exact fun hcon => hj hcon.symm)]
    rfl
  · intro c hc
    have hmemsh : (c.uniqueId, c) ∈ shardOf st c.loopId := by
      have h1 : (c.uniqueId, c) ∈ (shardOf st c.loopId).filter
          (fun p => p.1 == c.uniqueId) := by
        rw [hsing c hc]
        exact List.mem_singleton.mpr rfl
      exact (List.mem_filter.mp h1).1
    have hk : hasKey (shardOf st c.loopId) c.uniqueId = true :=
      List.any_eq_true.mpr ⟨(c.uniqueId, c), hmemsh, by simp⟩
    simp only [Service.OnNewConnection]
    by_cases hb : c.loopId < st.channels.length
    · rw [if_pos hb, if_pos hk]
    · rw [if_neg hb]
  · intro c hfil
    have hk : ¬ hasKey (shardOf st c.loopId) c.uniqueId = true := by
      intro hcon
      obtain ⟨p, hp, hp1⟩ := List.any_eq_true.mp hcon
      have : p ∈ (shardOf st c.loopId).filter (fun p => p.1 == c.uniqueId) :=
        List.mem_filter.mpr ⟨hp, hp1⟩
      rw [hfil] at this
      exact absurd this (List.not_mem_nil p)
    simp only [Service._OnDisconnect]
    by_cases hb : c.loopId < st.channels.length
    · rw [if_pos hb, if_neg hk]
    · rw [if_neg hb]

/-- C9 witness: on the concrete trace `trW` with two workers, the live
connection with unique id 3 (pinned to loop 0) has exactly one entry on
shard 0 and none on shard 1. -/
theorem C9_sharded_registry_witness :
    ConnsOK (traceConns trW)
    ∧ (shardOf stW 0).filter (fun p => p.1 == 3) = [(3, ⟨3, 0⟩)]
    ∧ (shardOf stW 1).filter (fun p => p.1 == 3) = [] := by
  have hOK : ConnsOK (traceConns trW) := connsOK_of_pairwise (by decide)
  refine ⟨hOK, ?_, ?_⟩
  · exact ((C9_sharded_registry 2 trW stW hOK rfl).2.2.1 ⟨3, 0⟩ (by decide)).1
  · exact ((C9_sharded_registry 2 trW stW hOK rfl).2.2.1 ⟨3, 0⟩ (by decide)).2
      1 (by decide)

end AnanasRpc
